import Mathlib

/-!
Verification of the Ralph conversation-to-report backend.

This file gives a shallow embedding of the pure decision logic of the two
variants of the service found in the repository:

* the root variant, `src/main.py` (namespace `RootMain`);
* the refactored variant, `app/src/main.py` (namespace `AppMain`) together
  with `app/pdf_utils/generator.py` (namespace `PdfGen`).

External effects (the DeepSeek chat-completion call, WeasyPrint PDF
rendering, the SMTP transport, the template file on disk, the clock and the
request host URL) are modelled as oracle parameters: an LLM call is an
`Except String String` (an exception message, or the completion text), PDF
rendering and template existence are `Bool` outcomes, SMTP delivery is an
`Except String Unit`.  Everything the Python code computes from those
outcomes — string cleaning, history trimming, error classification, the
fallback logic of the HTTP handlers and the response fields — is translated
directly from the source.

Python string primitives used by the code (`str.strip`, `str.lower`,
`str.title`, `str.replace`, `in`, slicing with negative indices, and the
non-greedy tag regex `re.sub("<.*?>", "", s)`) are reimplemented on
`List Char` below, following CPython semantics on ASCII data.
-/

/-! ## Python string primitives -/

/-- Python ASCII whitespace, the characters removed by `str.strip()`. -/
def pySpace (c : Char) : Bool :=
  c = ' ' || c = '\t' || c = '\n' || c = '\r' || c = '\x0b' || c = '\x0c'

/-- Characters of `str.strip()`: drop `pySpace` characters at both ends. -/
def pyStripL (l : List Char) : List Char :=
  ((l.dropWhile pySpace).reverse.dropWhile pySpace).reverse

/-- Python `s.strip()`. -/
def pyStrip (s : String) : String := ⟨pyStripL s.data⟩

/-- Python `s.lower()` (ASCII case mapping). -/
def pyLower (s : String) : String := ⟨s.data.map Char.toLower⟩

/-- One step of Python `str.title()`: the boolean records whether the
previous character was alphabetic. -/
def pyTitleL : Bool → List Char → List Char
  | _, [] => []
  | prevAlpha, c :: cs =>
    if c.isAlpha then
      (if prevAlpha then c.toLower else c.toUpper) :: pyTitleL true cs
    else
      c :: pyTitleL false cs

/-- Python `s.title()` (ASCII case mapping). -/
def pyTitle (s : String) : String := ⟨pyTitleL false s.data⟩

/-- Whether `p` is a prefix of `l`, as a boolean. -/
def isPrefixOfL : List Char → List Char → Bool
  | [], _ => true
  | _ :: _, [] => false
  | a :: as, b :: bs => a = b && isPrefixOfL as bs

/-- Whether `pat` occurs as a contiguous substring of `l`. -/
def containsSubL (pat : List Char) : List Char → Bool
  | [] => isPrefixOfL pat []
  | c :: t => isPrefixOfL pat (c :: t) || containsSubL pat t

/-- Python `pat in s` (substring containment). -/
def pyIn (pat s : String) : Bool := containsSubL pat.data s.data

/-- Scan for the first greater-than character, giving up at a newline;
returns the remaining characters after it.  A dot in a Python regex does
not match a newline, so a newline aborts the candidate match of `<.*?>`. -/
def findGt : List Char → Option (List Char)
  | [] => none
  | c :: cs => if c = '>' then some cs else if c = '\n' then none else findGt cs

/-- Characters of `re.sub("<.*?>", "", s)`: each leftmost shortest
`<...>` span (with no newline inside) is removed. -/
def removeTagsL : List Char → List Char
  | [] => []
  | c :: cs =>
    if c = '<' then
      match h : findGt cs with
      | some rest => removeTagsL rest
      | none => c :: removeTagsL cs
    else
      c :: removeTagsL cs
termination_by l => l.length
decreasing_by
  · have key : ∀ (l r : List Char), findGt l = some r → r.length < l.length := by
      intro l
      induction l with
      | nil => intro r hr; simp [findGt] at hr
      | cons a as ih =>
        intro r hr
        simp only [findGt] at hr
        by_cases ha : a = '>'
        · simp [ha] at hr
          subst hr
          simp
        · by_cases hn : a = '\n'
          · simp [ha, hn] at hr
          · simp [ha, hn] at hr
            have := ih r hr
            simp
            omega
    have := key _ _ h
    simp
    omega
  · simp
  · simp

/-- Python `re.sub("<.*?>", "", s)`. -/
def removeTags (s : String) : String := ⟨removeTagsL s.data⟩

/-- Characters of Python `s.replace(pat, rep)` for a nonempty pattern
`p :: ps`: non-overlapping left-to-right replacement. -/
def pyReplaceL (p : Char) (ps : List Char) (rep : List Char) : List Char → List Char
  | [] => []
  | c :: t =>
    if isPrefixOfL (p :: ps) (c :: t) then
      rep ++ pyReplaceL p ps rep (t.drop ps.length)
    else
      c :: pyReplaceL p ps rep t
termination_by l => l.length
decreasing_by
  · simp
    omega
  · simp

/-- Python `s.replace(pat, rep)`.  (For the empty pattern — never used by
this program — the string is returned unchanged.) -/
def pyReplace (s pat rep : String) : String :=
  match pat.data with
  | [] => s
  | p :: ps => ⟨pyReplaceL p ps rep.data s.data⟩

/-- Python `s.rstrip(c)` for a single character. -/
def pyRstrip (s : String) (c : Char) : String :=
  ⟨(s.data.reverse.dropWhile (· = c)).reverse⟩

/-- Python slicing `l[i:]` for an `Int` index: a negative index counts
from the end (`l[-0:]` is the whole list). -/
def pySliceFrom (l : List α) (i : Int) : List α :=
  if i < 0 then l.drop (Int.toNat (l.length + i)) else l.drop (Int.toNat i)

/-- A string of `n` copies of the character `c` (Python `c * n`). -/
def repeatChar (c : Char) (n : Nat) : String := ⟨List.replicate n c⟩

/-- Concatenation of a list of strings. -/
def strJoin : List String → String
  | [] => ""
  | s :: rest => s ++ strJoin rest

/-! ## Data model

A chat message, as the JSON dictionaries consumed by the handlers: both
fields are read with `dict.get`, so both may be absent. -/

structure Msg where
  sender : Option String
  content : Option String
deriving DecidableEq, Repr

/-- The history-limiting step shared verbatim by both copies of
`format_conversation_to_text`:

    if len(chat_history) > max_messages:
        initial_messages = chat_history[:5]
        recent_messages = chat_history[-(max_messages-5):]
        limited_history = initial_messages + recent_messages
        ... (trim note) ...
    else:
        limited_history = chat_history

Returns the limited history and whether the trim note was emitted.
`max_messages - 5` is computed in `Int`, as in Python. -/
def limitHistory (chatHistory : List Msg) (maxMessages : Nat) : List Msg × Bool :=
  if chatHistory.length > maxMessages then
    (chatHistory.take 5 ++ pySliceFrom chatHistory (-((maxMessages : Int) - 5)), true)
  else
    (chatHistory, false)

/-! ## Root variant: `src/main.py` -/

namespace RootMain

/-- The placeholder onboarding message test from the formatter loop. -/
def placeholderPat : String := "To start, please tell me"

/-- The cleaned body of a message:
`re.sub("<.*?>", "", msg.get("content", "(empty)")).strip()`. -/
def cleanContent (msg : Msg) : String :=
  pyStrip (removeTags (msg.content.getD "(empty)"))

/-- The `continue` condition of the formatter loop:
`not clean_content or "To start, please tell me" in clean_content`. -/
def skipMsg (msg : Msg) : Bool :=
  cleanContent msg = "" || pyIn placeholderPat (cleanContent msg)

/-- The labelled line appended for a surviving message: bot messages get
the fixed `Ralph (AI)` label, user messages the name of the user; a
with any other (or missing) sender contributes no line. -/
def msgLine (userName : String) (msg : Msg) : String :=
  if msg.sender = some "bot" then "Ralph (AI): " ++ cleanContent msg ++ "\n\n"
  else if msg.sender = some "user" then userName ++ ": " ++ cleanContent msg ++ "\n\n"
  else ""

/-- The visual divider appended after each surviving message:
`"-" * 30 + "\n\n"`. -/
def divider : String := repeatChar '-' 30 ++ "\n\n"

/-- One iteration of the formatter loop: skipped messages contribute
nothing, surviving messages contribute their line and the divider. -/
def renderMsg (userName : String) (msg : Msg) : String :=
  if skipMsg msg then "" else msgLine userName msg ++ divider

/-- The header built before the loop. -/
def headerText (userName profile : String) : String :=
  "Real Estate Business Analysis for " ++ userName ++ "\n" ++
  "Profile: " ++ pyTitle profile ++ "\n" ++ repeatChar '=' 50 ++ "\n\n"

/-- The trim note inserted when the history is limited. -/
def trimNote : String :=
  "Note: Conversation history was trimmed to focus on key interactions.\n\n"

/-- `format_conversation_to_text(chat_history, user_name, profile, max_messages)`
from `src/main.py` (default `max_messages=15`). -/
def format_conversation_to_text (chatHistory : List Msg) (userName : String)
    (profile : String) (maxMessages : Nat := 15) : String :=
  let limited := limitHistory chatHistory maxMessages
  let log0 := headerText userName profile ++ (if limited.2 then trimNote else "")
  limited.1.foldl (fun acc msg => acc ++ renderMsg userName msg) log0

end RootMain

/-! ## Refactored variant, PDF generator: `app/pdf_utils/generator.py` -/

namespace PdfGen

/-- The cleaned body of a message in the refactored formatter
(the default for a missing `content` key is `"(vazio)"`). -/
def cleanContent (msg : Msg) : String :=
  pyStrip (removeTags (msg.content.getD "(vazio)"))

/-- The `continue` condition of the refactored formatter loop. -/
def skipMsg (msg : Msg) : Bool :=
  cleanContent msg = "" || pyIn RootMain.placeholderPat (cleanContent msg)

/-- The labelled line for a surviving message (single trailing newline). -/
def msgLine (userName : String) (msg : Msg) : String :=
  if msg.sender = some "bot" then "Ralph (AI): " ++ cleanContent msg ++ "\n"
  else if msg.sender = some "user" then userName ++ ": " ++ cleanContent msg ++ "\n"
  else ""

/-- The divider of the refactored formatter. -/
def divider : String := "---\n"

/-- One iteration of the refactored formatter loop. -/
def renderMsg (userName : String) (msg : Msg) : String :=
  if skipMsg msg then "" else msgLine userName msg ++ divider

/-- The header of the refactored formatter. -/
def headerText (userName profile : String) : String :=
  "Contexto da Conversa com " ++ userName ++ " (Perfil: " ++ pyTitle profile ++ ")\n" ++
  repeatChar '=' 50 ++ "\n\n"

/-- The trim note of the refactored formatter. -/
def trimNote : String :=
  "(Nota: Histórico da conversa foi resumido para focar nos pontos chave)\n\n"

/-- `format_conversation_to_text(chat_history, user_name, profile, max_messages)`
from `app/pdf_utils/generator.py` (default `max_messages=20`). -/
def format_conversation_to_text (chatHistory : List Msg) (userName : String)
    (profile : String) (maxMessages : Nat := 20) : String :=
  let limited := limitHistory chatHistory maxMessages
  let log0 := headerText userName profile ++ (if limited.2 then trimNote else "")
  limited.1.foldl (fun acc msg => acc ++ renderMsg userName msg) log0

end PdfGen

/-! ## Error kinds

The four-way error taxonomy of failed LLM calls from the spec. -/

inductive ErrKind
  | auth
  | quota
  | timeout
  | unknown
deriving DecidableEq, Repr

/-! ## Root variant: LLM adapter and `/analyze` handler -/

namespace RootMain

/-- The error classification of `generate_deepseek_analysis`, as a kind:
the same if/elif chain as the source, with the message it builds
abstracted away. -/
def classifyKind (e : String) : ErrKind :=
  let le := pyLower e
  if pyIn "authentication" le then ErrKind.auth
  else if pyIn "quota" le || pyIn "limit" le || pyIn "insufficient_quota" le then ErrKind.quota
  else if pyIn "timeout" le || pyIn "timed out" le then ErrKind.timeout
  else ErrKind.unknown

/-- The constant head of each error message of `generate_deepseek_analysis`;
the full message is this head followed by `str(e)` and a closing
parenthesis. -/
def kindMsgHead : ErrKind → String
  | ErrKind.auth =>
    "Error generating AI analysis: Authentication failed. Please check your DeepSeek API key configuration. ("
  | ErrKind.quota =>
    "Error generating AI analysis: API quota exceeded or insufficient funds. Please check your DeepSeek account billing. ("
  | ErrKind.timeout =>
    "Error generating AI analysis: Request timed out. The conversation may be too long or the server is experiencing high load. ("
  | ErrKind.unknown =>
    "Error generating AI analysis: An unexpected error occurred. ("

/-- The except-branch of `generate_deepseek_analysis` (src/main.py lines
185-198): string-matches the lowered exception text and builds the
user-facing message. -/
def deepseekErrorMsg (e : String) : String :=
  let le := pyLower e
  if pyIn "authentication" le then
    "Error generating AI analysis: Authentication failed. Please check your DeepSeek API key configuration. ("
      ++ e ++ ")"
  else if pyIn "quota" le || pyIn "limit" le || pyIn "insufficient_quota" le then
    "Error generating AI analysis: API quota exceeded or insufficient funds. Please check your DeepSeek account billing. ("
      ++ e ++ ")"
  else if pyIn "timeout" le || pyIn "timed out" le then
    "Error generating AI analysis: Request timed out. The conversation may be too long or the server is experiencing high load. ("
      ++ e ++ ")"
  else
    "Error generating AI analysis: An unexpected error occurred. (" ++ e ++ ")"

/-- The fixed signature appended to a successful analysis. -/
def ralphSignature : String :=
  "\n\n---\nAnalysis generated by Ralph AI\nReal Estate Business Consultant"

/-- `generate_deepseek_analysis(chat_history, profile, user_name)`:
the guard on the missing client, the success path (strip, the
empty-response message, the appended signature) and the error
classification.  The chat-completion call is the oracle `llm`; the
transcript/prompt construction only influences that oracle and is elided
here because no response field depends on it. -/
def generate_deepseek_analysis (clientConfigured : Bool) (llm : Except String String) : String :=
  if clientConfigured = false then
    "AI analysis could not be performed. DeepSeek API configuration missing or failed."
  else
    match llm with
    | Except.ok content =>
      let t := pyStrip content
      if t = "" then "Analysis could not be generated. Empty response received from API."
      else t ++ ralphSignature
    | Except.error e => deepseekErrorMsg e

/-- The marker `analyze_data` looks for to decide the status and the
fallback. -/
def errMarker : String := "Error generating AI analysis:"

/-- The PDF filename built by `generate_pdf_report`:
lowercased user name with spaces turned into underscores, between a
fixed stem and the timestamp. -/
def rootPdfFilename (userName timestamp : String) : String :=
  "ralph_analysis_" ++ pyReplace (pyLower userName) " " "_" ++ "_" ++ timestamp ++ ".pdf"

/-- `generate_pdf_report(chat_history, profile, user_name)`: returns the
`(path, filename)` pair on success and `none` (the original
`(None, None)`) when WeasyPrint raises.  The HTML body of the report is
not observable in any response field and is not modelled; `renderOk` is
the rendering oracle and `timestamp` the formatted clock value. -/
def generate_pdf_report (renderOk : Bool) (pdfFolder userName timestamp : String) :
    Option (String × String) :=
  if renderOk then
    some (pdfFolder ++ "/" ++ rootPdfFilename userName timestamp,
          rootPdfFilename userName timestamp)
  else none

/-- The replacement analysis text used when the fallback PDF was
generated, with the full PDF URL spliced in (transcribed byte-exactly
from the source, including the indentation of the triple-quoted
literal). -/
def pdfLinkText (fullPdfUrl : String) : String :=
  "\n                We\x27ve prepared a comprehensive business analysis report for you.\n\n                Your personalized report is ready to view or download at the link below:\n                \n                "
  ++ fullPdfUrl ++
  "\n                \n                This report includes:\n                • Analysis of your business strengths and challenges\n                • Specific recommendations tailored to your situation\n                • Automation opportunities to improve efficiency\n                • Potential ROI from implementing our suggestions\n                \n                The report is formatted as a professional PDF document for easy sharing and reference.\n                "

/-- The generic replacement analysis text used when even the fallback PDF
generation failed (transcribed byte-exactly from the source). -/
def genericFallbackText : String :=
  "\n                We\x27ve analyzed your business based on our conversation and identified several opportunities for improvement:\n\n                1. Implement a structured follow-up system for leads and clients\n                2. Leverage technology to automate repetitive administrative tasks\n                3. Develop clear metrics to track your business performance\n                4. Create standardized processes for common workflows\n                5. Consider digital tools to enhance your client communication\n\n                These changes could result in significant time savings and increased revenue through better conversion rates and client retention.\n                \n                For a more detailed analysis, please try again or contact support.\n                "

/-- `send_email_notification(subject, text_body, attachment_path)` of
src/main.py: the `not all([EMAIL_SENDER, EMAIL_PASSWORD, EMAIL_RECEIVER])`
check skips the send and returns `False` (`none` models an unset or empty
variable); otherwise the SMTP oracle decides the result and every SMTP
exception is caught and mapped to `False`. -/
def send_email_notification (emailSender emailPassword emailReceiver : Option String)
    (smtp : Except String Unit) : Bool :=
  if emailSender.isNone || emailPassword.isNone || emailReceiver.isNone then false
  else
    match smtp with
    | Except.ok _ => true
    | Except.error _ => false

end RootMain

/-- The request body of the JSON endpoints, after the `dict.get`
defaults of the handlers (`userName="User"`, `profile="unknown"`,
`chatHistory=[]`; a missing `chatHistory` key is the empty list). -/
structure ReqData where
  userName : String
  profile : String
  chatHistory : List Msg
deriving DecidableEq, Repr

namespace RootMain

/-- The observable outcome of the root `/analyze` handler: the HTTP code,
the JSON body fields, plus two model-level observations that are not part
of the HTTP response: whether `generate_deepseek_analysis` was invoked and
the result of the email step. -/
structure AnalyzeResult where
  httpCode : Nat
  errorField : Option String
  analysis_text : Option String
  status : Option String
  pdf_url : Option String
  llmInvoked : Bool
  emailSent : Bool
deriving DecidableEq, Repr

/-- The `/analyze` handler of src/main.py (`analyze_data`).  Oracles:
`llm` for the chat-completion call, `pdfRenderOk` for WeasyPrint,
`timestamp` for the formatted clock, `hostUrl` for `request.host_url`,
`smtp` for the SMTP transport.  Formatting and saving the conversation for
the email attachment influences no response field and is elided; the outer
`except` branch (a 500 response) is unreachable in this model because
every modelled step is total, exactly as in the source where each step
catches its own exceptions. -/
def analyze_data (isJson : Bool) (data : Option ReqData) (clientConfigured : Bool)
    (llm : Except String String) (pdfRenderOk : Bool)
    (pdfFolder timestamp hostUrl : String)
    (emailSender emailPassword emailReceiver : Option String)
    (smtp : Except String Unit) : AnalyzeResult :=
  if isJson = false then
    ⟨400, some "Request must be JSON", none, none, none, false, false⟩
  else
    match data with
    | none => ⟨400, some "No data received", none, none, none, false, false⟩
    | some d =>
      if d.chatHistory = [] then
        ⟨400, some "Chat history is empty", none, none, none, false, false⟩
      else
        let firstText :=
          if clientConfigured = false then
            "AI analysis unavailable - DeepSeek API not configured properly."
          else generate_deepseek_analysis clientConfigured llm
        let useFallback :=
          clientConfigured = false || (firstText = "" || pyIn errMarker firstText)
        let pdfOutcome :=
          if useFallback then generate_pdf_report pdfRenderOk pdfFolder d.userName timestamp
          else none
        let finalText :=
          if useFallback then
            match pdfOutcome with
            | some pf => pdfLinkText (pyRstrip hostUrl '/' ++ "/reports/" ++ pf.2)
            | none => genericFallbackText
          else firstText
        let emailOk := send_email_notification emailSender emailPassword emailReceiver smtp
        ⟨200, none, some finalText,
         some (if pyIn errMarker finalText then "error" else "success"),
         (match pdfOutcome with
          | some pf => some ("/reports/" ++ pf.2)
          | none => none),
         clientConfigured, emailOk⟩

end RootMain

/-! ## Refactored variant: per-section generation and summary
(`app/pdf_utils/generator.py`) -/

namespace PdfGen

/-- The five section keys of the `prompts` dictionary of
`generate_ai_section`, in the order `generate_pdf_report_weasyprint`
iterates over them. -/
def sectionKeys : List String :=
  ["executive_summary", "best_tactics", "areas_to_change", "automations",
   "next_10_months_plan"]

/-- The base error message of the except-branch of `generate_ai_section`:
the Portuguese try-again text naming the section. -/
def aiSectionBase (sectionName : String) : String :=
  "Erro ao gerar conteúdo para \x27" ++ sectionName ++ "\x27. Tente novamente mais tarde."

/-- The kind-specific suffix appended to `aiSectionBase` (nothing for an
unrecognized exception). -/
def aiKindSuffix : ErrKind → String
  | ErrKind.auth => " (Falha na autenticação da API)"
  | ErrKind.quota => " (Quota da API excedida)"
  | ErrKind.timeout => " (Tempo limite da API excedido)"
  | ErrKind.unknown => ""

/-- The except-branch of `generate_ai_section` (generator.py lines
107-116): the same string matches as the root adapter. -/
def aiSectionErrorMsg (sectionName e : String) : String :=
  let le := pyLower e
  if pyIn "authentication" le then
    aiSectionBase sectionName ++ " (Falha na autenticação da API)"
  else if pyIn "quota" le || pyIn "limit" le || pyIn "insufficient_quota" le then
    aiSectionBase sectionName ++ " (Quota da API excedida)"
  else if pyIn "timeout" le || pyIn "timed out" le then
    aiSectionBase sectionName ++ " (Tempo limite da API excedido)"
  else
    aiSectionBase sectionName

/-- `generate_ai_section(section_name, conversation_text, user_name,
context)`: the missing-client guard, the prompt lookup (the `prompts`
dictionary has exactly the five `sectionKeys`), the post-processing of a
successful completion (`strip`, drop `"**"`, turn `"* "` into
`"<br>• "`), and the error classification.  The prompt text itself only
influences the oracle `llm`. -/
def generate_ai_section (clientConfigured : Bool) (sectionName : String)
    (llm : Except String String) : String :=
  if clientConfigured = false then
    "Erro: Cliente DeepSeek não configurado para gerar seção \x27" ++ sectionName ++ "\x27."
  else if sectionKeys.contains sectionName = false then
    "Erro: Prompt não definido para a seção \x27" ++ sectionName ++ "\x27."
  else
    match llm with
    | Except.ok content => pyReplace (pyReplace (pyStrip content) "**" "") "* " "<br>• "
    | Except.error e => aiSectionErrorMsg sectionName e

/-- The per-section error detector of `generate_pdf_report_weasyprint`:
`"Erro:" in content or "Erro ao gerar" in content`. -/
def sectionHasError (content : String) : Bool :=
  pyIn "Erro:" content || pyIn "Erro ao gerar" content

/-- One character of the filename sanitizer: anything outside ASCII
letters, digits and underscore becomes an underscore. -/
def sanitizeFileChar (c : Char) : Char :=
  if c.isAlphanum || c = '_' then c else '_'

/-- The PDF filename built by `generate_pdf_report_weasyprint`:
a fixed stem, the sanitized lowercased user name and the timestamp. -/
def pdfFilename (userName timestamp : String) : String :=
  "ralph_analysis_" ++ String.mk ((pyLower userName).data.map sanitizeFileChar)
    ++ "_" ++ timestamp ++ ".pdf"

/-- `generate_pdf_report_weasyprint(chat_history, profile, user_name)`:
generates the five section contents in order, raises `ValueError` (caught
below, giving `(None, None)`) as soon as any content matches the error
detector, returns `(None, None)` on a missing template file or any
rendering exception, and otherwise returns the `(path, filename)` pair.
All exceptions are caught inside the function, so it never raises to the
caller.  The HTML templating of the section contents only affects the PDF
bytes, which are not observable in the returned pair. -/
def generate_pdf_report_weasyprint (clientConfigured : Bool)
    (llm : String → Except String String) (templateExists renderOk : Bool)
    (outFolder userName timestamp : String) : Option (String × String) :=
  let contents := sectionKeys.map (fun k => generate_ai_section clientConfigured k (llm k))
  if contents.any sectionHasError then none
  else if templateExists = false then none
  else if renderOk = false then none
  else
    some (outFolder ++ "/" ++ pdfFilename userName timestamp,
          pdfFilename userName timestamp)

/-- The base error message of `generate_summary_analysis`. -/
def summaryBase : String := "Erro ao gerar o sumário da análise."

/-- The error classification of `generate_summary_analysis`: unlike the
root adapter it matches only `authentication`, `quota` and `timeout`
(no `limit`, `insufficient_quota` or `timed out`). -/
def summaryKind (e : String) : ErrKind :=
  let le := pyLower e
  if pyIn "authentication" le then ErrKind.auth
  else if pyIn "quota" le then ErrKind.quota
  else if pyIn "timeout" le then ErrKind.timeout
  else ErrKind.unknown

/-- The constant message of each kind in `generate_summary_analysis`:
the shared base plus a kind-specific suffix (none for `unknown`). -/
def summaryMsg : ErrKind → String
  | ErrKind.auth => summaryBase ++ " (Falha na autenticação da API)"
  | ErrKind.quota => summaryBase ++ " (Quota da API excedida)"
  | ErrKind.timeout => summaryBase ++ " (Tempo limite da API excedido)"
  | ErrKind.unknown => summaryBase

/-- The except-branch of `generate_summary_analysis` (generator.py lines
249-255). -/
def summaryErrorMsg (e : String) : String :=
  let le := pyLower e
  if pyIn "authentication" le then summaryBase ++ " (Falha na autenticação da API)"
  else if pyIn "quota" le then summaryBase ++ " (Quota da API excedida)"
  else if pyIn "timeout" le then summaryBase ++ " (Tempo limite da API excedido)"
  else summaryBase

/-- `generate_summary_analysis(chat_history, profile, user_name)`:
returns the text together with the success flag of the returned
`(text, ok)` pair.  A successful completion is returned stripped, with no
further checks; a missing client or a raised exception gives an error
message and `False`. -/
def generate_summary_analysis (clientConfigured : Bool) (llm : Except String String) :
    String × Bool :=
  if clientConfigured = false then
    ("Erro: Cliente DeepSeek não configurado para gerar sumário.", false)
  else
    match llm with
    | Except.ok content => (pyStrip content, true)
    | Except.error e => (summaryErrorMsg e, false)

end PdfGen

/-! ## Refactored variant: HTTP handlers (`app/src/main.py`) -/

namespace AppMain

/-- `send_email_notification(subject, text_body, recipient_email,
attachment_path)` of app/src/main.py: skips (returning `False`) when the
sender or the password is missing; every SMTP exception is caught and
mapped to `False`. -/
def send_email_notification (emailSender emailPassword : Option String)
    (smtp : Except String Unit) : Bool :=
  if emailSender.isNone || emailPassword.isNone then false
  else
    match smtp with
    | Except.ok _ => true
    | Except.error _ => false

/-- The observable outcome of the refactored `/analyze` handler.
`llmInvoked` records whether `generate_summary_analysis` was called. -/
structure ChatResult where
  httpCode : Nat
  errorField : Option String
  analysis_text : Option String
  status : Option String
  pdf_ready : Option Bool
  llmInvoked : Bool
deriving DecidableEq, Repr

/-- The `/analyze` handler of app/src/main.py (`analyze_chat`). -/
def analyze_chat (isJson : Bool) (data : Option ReqData) (clientConfigured : Bool)
    (llm : Except String String) : ChatResult :=
  if isJson = false then ⟨400, some "Request must be JSON", none, none, none, false⟩
  else
    match data with
    | none => ⟨400, some "No data received", none, none, none, false⟩
    | some d =>
      if d.chatHistory = [] then
        ⟨400, some "Chat history is empty", none, none, none, false⟩
      else
        let res := PdfGen.generate_summary_analysis clientConfigured llm
        ⟨200, none, some res.1, some (if res.2 then "success" else "error"),
         some res.2, true⟩

/-- The observable outcome of the refactored `/generate-pdf` handler:
`fileSent` is the `(path, download_name)` pair handed to `send_file`;
`emailSent` is a model-level observation of the best-effort email step,
not part of the HTTP response. -/
structure PdfResult where
  httpCode : Nat
  errorField : Option String
  fileSent : Option (String × String)
  emailSent : Bool
deriving DecidableEq, Repr

/-- The `/generate-pdf` handler of app/src/main.py (`generate_pdf`):
validation, PDF generation, the best-effort email copy to the internal
address (attempted only when receiver, sender and password are all
configured; its own exception handler and the one in the email helper
swallow every failure), and the `send_file`/500 response. -/
def generate_pdf (isJson : Bool) (data : Option ReqData) (clientConfigured : Bool)
    (llm : String → Except String String) (templateExists renderOk : Bool)
    (outFolder timestamp : String)
    (emailSender emailPassword emailReceiver : Option String)
    (smtp : Except String Unit) : PdfResult :=
  if isJson = false then ⟨400, some "Request must be JSON", none, false⟩
  else
    match data with
    | none => ⟨400, some "No data received", none, false⟩
    | some d =>
      if d.chatHistory = [] then
        ⟨400, some "Chat history is empty", none, false⟩
      else
        match PdfGen.generate_pdf_report_weasyprint clientConfigured llm
            templateExists renderOk outFolder d.userName timestamp with
        | some pf =>
          let emailOk :=
            if emailReceiver.isSome && emailSender.isSome && emailPassword.isSome then
              send_email_notification emailSender emailPassword smtp
            else false
          ⟨200, none, some pf, emailOk⟩
        | none =>
          ⟨500, some "Falha interna ao gerar o relatório PDF. Verifique os logs do servidor.",
           none, false⟩

end AppMain

/-! ## Concrete inputs used in witnesses and counterexamples -/

/-- A user message with the given content. -/
def demoUserMsg (c : String) : Msg := ⟨some "user", some c⟩

/-- A bot message with the given content. -/
def demoBotMsg (c : String) : Msg := ⟨some "bot", some c⟩

/-- Six distinct messages. -/
def demoSix : List Msg :=
  [demoUserMsg "m0", demoBotMsg "m1", demoUserMsg "m2", demoBotMsg "m3",
   demoUserMsg "m4", demoBotMsg "m5"]

/-- Eight distinct messages. -/
def demoEight : List Msg :=
  demoSix ++ [demoUserMsg "m6", demoBotMsg "m7"]

/-- A small history exercising tag stripping, the placeholder filter and
the empty-after-strip filter. -/
def demoHist : List Msg :=
  [demoUserMsg "Hi <b>there</b>",
   demoBotMsg "To start, please tell me about your business",
   demoBotMsg "  ",
   demoBotMsg "Answer one"]

/-- A minimal valid request body. -/
def demoReq : ReqData := ⟨"Ana", "owner", [demoUserMsg "Hi"]⟩

/-- A request body with an empty chat history. -/
def demoEmptyReq : ReqData := ⟨"Ana", "owner", []⟩

/-- A concrete `/analyze` run: valid request, configured client, LLM call
raising `insufficient_quota`, fallback PDF generation failing. -/
def demoQuotaRun : RootMain.AnalyzeResult :=
  RootMain.analyze_data true (some demoReq) true (Except.error "insufficient_quota")
    false "folder" "20250101_000000" "http://localhost:8080/" none none none
    (Except.ok ())

/-- Whether a string contains the capital letter `E` — the first letter of
the error marker; the fallback texts never contain it. -/
def hasE (s : String) : Bool := s.data.any (fun c => c = 'E')

/-! ## Infrastructure lemmas -/

theorem foldl_strAppend (f : Msg → String) :
    ∀ (l : List Msg) (init : String),
      List.foldl (fun acc msg => acc ++ f msg) init l = init ++ strJoin (l.map f) := by
  intro l
  induction l with
  | nil =>
    intro init
    simp [strJoin]
  | cons x t ih =>
    intro init
    simp only [List.foldl_cons, List.map_cons, strJoin]
    rw [ih, String.append_assoc]

theorem strJoin_ite_filter (skip : Msg → Bool) (g : Msg → String) :
    ∀ l : List Msg,
      strJoin (l.map (fun x => if skip x then "" else g x)) =
        strJoin ((l.filter (fun x => !skip x)).map g) := by
  intro l
  induction l with
  | nil => rfl
  | cons x t ih =>
    cases h : skip x with
    | true => simp [strJoin, h, ih, List.filter_cons]
    | false => simp [strJoin, h, ih, List.filter_cons]

theorem limitHistory_le {l : List Msg} {m : Nat} (h : l.length ≤ m) :
    limitHistory l m = (l, false) := by
  unfold limitHistory
  rw [if_neg (by omega)]

theorem limitHistory_gt {l : List Msg} {m : Nat} (h5 : 5 < m) (h : l.length > m) :
    limitHistory l m = (l.take 5 ++ l.drop (l.length - (m - 5)), true) := by
  unfold limitHistory pySliceFrom
  rw [if_pos h, if_pos (by omega : -((m : Int) - 5) < 0)]
  have : Int.toNat ((l.length : Int) + -((m : Int) - 5)) = l.length - (m - 5) := by omega
  rw [this]

theorem rootFormat_eq (hist : List Msg) (u p : String) (m : Nat) :
    RootMain.format_conversation_to_text hist u p m =
      RootMain.headerText u p ++
        (if (limitHistory hist m).2 then RootMain.trimNote else "") ++
        strJoin (((limitHistory hist m).1).map (RootMain.renderMsg u)) := by
  unfold RootMain.format_conversation_to_text
  rw [foldl_strAppend]

theorem pdfgenFormat_eq (hist : List Msg) (u p : String) (m : Nat) :
    PdfGen.format_conversation_to_text hist u p m =
      PdfGen.headerText u p ++
        (if (limitHistory hist m).2 then PdfGen.trimNote else "") ++
        strJoin (((limitHistory hist m).1).map (PdfGen.renderMsg u)) := by
  unfold PdfGen.format_conversation_to_text
  rw [foldl_strAppend]

/-! ## C2: head+tail trimming window -/

/-- C2 (amended: the window law holds for `maxMessages > 5`; see the
counterexample for `maxMessages = 5`).  For every chat history and every
`maxMessages > 5`: when `len(history) > maxMessages` both formatters
retain exactly the first 5 and the last `maxMessages - 5` messages and
insert their trim notice; otherwise they retain all messages and insert
no notice. -/
theorem c2_trim_window (hist : List Msg) (u p : String) (m : Nat) (h5 : 5 < m) :
    (hist.length > m →
      limitHistory hist m = (hist.take 5 ++ hist.drop (hist.length - (m - 5)), true) ∧
      RootMain.format_conversation_to_text hist u p m =
        RootMain.headerText u p ++ RootMain.trimNote ++
          strJoin ((hist.take 5 ++ hist.drop (hist.length - (m - 5))).map
            (RootMain.renderMsg u)) ∧
      PdfGen.format_conversation_to_text hist u p m =
        PdfGen.headerText u p ++ PdfGen.trimNote ++
          strJoin ((hist.take 5 ++ hist.drop (hist.length - (m - 5))).map
            (PdfGen.renderMsg u))) ∧
    (hist.length ≤ m →
      limitHistory hist m = (hist, false) ∧
      RootMain.format_conversation_to_text hist u p m =
        RootMain.headerText u p ++ strJoin (hist.map (RootMain.renderMsg u)) ∧
      PdfGen.format_conversation_to_text hist u p m =
        PdfGen.headerText u p ++ strJoin (hist.map (PdfGen.renderMsg u))) := by
  constructor
  · intro hgt
    have hl := limitHistory_gt h5 hgt
    refine ⟨hl, ?_, ?_⟩
    · rw [rootFormat_eq, hl]
      simp
    · rw [pdfgenFormat_eq, hl]
      simp
  · intro hle
    have hl := limitHistory_le hle
    refine ⟨hl, ?_, ?_⟩
    · rw [rootFormat_eq, hl]
      simp [String.append_empty]
    · rw [pdfgenFormat_eq, hl]
      simp [String.append_empty]

/-- C2 counterexample: at `maxMessages = 5` with six messages the Python
slice `chat_history[-(max_messages-5):]` is `chat_history[-0:]`, the whole
list, so the trim branch keeps the first five messages plus all six —
eleven entries, with duplicates — not the first five and the last zero. -/
theorem c2_counterexample :
    (limitHistory demoSix 5).2 = true ∧
    (limitHistory demoSix 5).1 ≠
      demoSix.take 5 ++ demoSix.drop (demoSix.length - (5 - 5)) := by
  decide

/-- C2 witness: a concrete trimmed history at `maxMessages = 6`. -/
theorem c2_witness :
    limitHistory demoEight 6 =
      (demoEight.take 5 ++ demoEight.drop (demoEight.length - (6 - 5)), true) :=
  ((c2_trim_window demoEight "Ana" "owner" 6 (by decide)).1 (by decide)).1

/-! ## C3: untrimmed histories keep every qualifying message, in order -/

/-- C3: for every history short enough not to be trimmed, the formatter
output is exactly the header followed by, in the original order, one
labelled block per message that survives the filter (non-empty after tag
removal and stripping, and not the placeholder onboarding message); each
skipped message contributes nothing.  Both formatter copies are covered. -/
theorem c3_formatter_keeps_messages (hist : List Msg) (u p : String) (m : Nat)
    (hlen : hist.length ≤ m) :
    RootMain.format_conversation_to_text hist u p m =
      RootMain.headerText u p ++
        strJoin ((hist.filter (fun x => !RootMain.skipMsg x)).map
          (fun x => RootMain.msgLine u x ++ RootMain.divider)) ∧
    PdfGen.format_conversation_to_text hist u p m =
      PdfGen.headerText u p ++
        strJoin ((hist.filter (fun x => !PdfGen.skipMsg x)).map
          (fun x => PdfGen.msgLine u x ++ PdfGen.divider)) := by
  constructor
  · rw [rootFormat_eq, limitHistory_le hlen]
    simp only [String.append_empty]
    rw [show RootMain.renderMsg u = fun x =>
          if RootMain.skipMsg x then "" else RootMain.msgLine u x ++ RootMain.divider from rfl,
        strJoin_ite_filter]
    simp [String.append_empty]
  · rw [pdfgenFormat_eq, limitHistory_le hlen]
    simp only [String.append_empty]
    rw [show PdfGen.renderMsg u = fun x =>
          if PdfGen.skipMsg x then "" else PdfGen.msgLine u x ++ PdfGen.divider from rfl,
        strJoin_ite_filter]
    simp [String.append_empty]

/-- C3 witness: the formatter applied to a history containing an HTML
tag, the placeholder message and a whitespace-only message. -/
theorem c3_witness :
    RootMain.format_conversation_to_text demoHist "Ana" "owner" 15 =
      RootMain.headerText "Ana" "owner" ++
        strJoin ((demoHist.filter (fun x => !RootMain.skipMsg x)).map
          (fun x => RootMain.msgLine "Ana" x ++ RootMain.divider)) ∧
    PdfGen.format_conversation_to_text demoHist "Ana" "owner" 15 =
      PdfGen.headerText "Ana" "owner" ++
        strJoin ((demoHist.filter (fun x => !PdfGen.skipMsg x)).map
          (fun x => PdfGen.msgLine "Ana" x ++ PdfGen.divider)) :=
  c3_formatter_keeps_messages demoHist "Ana" "owner" 15 (by decide)

/-! ## C8: the formatter is total and always starts with the header -/

/-- C8: both formatter copies are total Lean functions (so they return a
string on every input, the empty history included) and every output
begins with the header lines; when no message survives filtering the
output is just the header (plus, possibly, the trim note). -/
theorem c8_header_always (hist : List Msg) (u p : String) (m : Nat) :
    (∃ rest, RootMain.format_conversation_to_text hist u p m =
      RootMain.headerText u p ++ rest) ∧
    (∃ rest, PdfGen.format_conversation_to_text hist u p m =
      PdfGen.headerText u p ++ rest) := by
  constructor
  · exact ⟨_, by rw [rootFormat_eq, String.append_assoc]⟩
  · exact ⟨_, by rw [pdfgenFormat_eq, String.append_assoc]⟩

/-! ## Substring and prefix lemmas -/

theorem isPrefixOfL_append {p : List Char} :
    ∀ {l : List Char}, isPrefixOfL p l = true → ∀ m, isPrefixOfL p (l ++ m) = true := by
  induction p with
  | nil => intro l _ m; rfl
  | cons a as ih =>
    intro l h m
    cases l with
    | nil => simp [isPrefixOfL] at h
    | cons b bs =>
      simp only [isPrefixOfL, Bool.and_eq_true, decide_eq_true_eq] at h
      simp only [List.cons_append, isPrefixOfL, Bool.and_eq_true, decide_eq_true_eq]
      exact ⟨h.1, ih h.2 m⟩

theorem containsSubL_nil_pat : ∀ l : List Char, containsSubL [] l = true := by
  intro l
  cases l with
  | nil => rfl
  | cons c t => simp [containsSubL, isPrefixOfL]

theorem containsSubL_append_right {pat : List Char} :
    ∀ {l : List Char}, containsSubL pat l = true → ∀ m, containsSubL pat (l ++ m) = true := by
  intro l
  induction l with
  | nil =>
    intro h m
    cases pat with
    | nil => exact containsSubL_nil_pat m
    | cons a as => simp [containsSubL, isPrefixOfL] at h
  | cons c t ih =>
    intro h m
    simp only [containsSubL, Bool.or_eq_true] at h
    rw [List.cons_append]
    rcases h with h | h
    · have := isPrefixOfL_append h m
      rw [List.cons_append] at this
      simp [containsSubL, this]
    · simp [containsSubL, ih h m]

theorem containsSubL_of_isPrefixOfL {pat l : List Char}
    (h : isPrefixOfL pat l = true) : containsSubL pat l = true := by
  cases l with
  | nil => simpa [containsSubL] using h
  | cons c t => simp [containsSubL, h]

theorem head_mem_of_containsSubL {pat l : List Char} {c : Char}
    (hp : pat.head? = some c) (h : containsSubL pat l = true) : c ∈ l := by
  induction l with
  | nil =>
    cases pat with
    | nil => simp at hp
    | cons a as => simp [containsSubL, isPrefixOfL] at h
  | cons a t ih =>
    simp only [containsSubL, Bool.or_eq_true] at h
    rcases h with h | h
    · cases pat with
      | nil => simp at hp
      | cons b bs =>
        simp only [List.head?_cons, Option.some.injEq] at hp
        simp only [isPrefixOfL, Bool.and_eq_true, decide_eq_true_eq] at h
        subst hp
        simp [h.1]
    · exact List.mem_cons_of_mem _ (ih h)

/-! ## The capital-E argument: the error marker starts with `E`, and no
fallback text can contain one -/

theorem hasE_append (a b : String) : hasE (a ++ b) = (hasE a || hasE b) := by
  simp [hasE, String.data_append]

theorem hasE_of_errMarker {s : String} (h : pyIn RootMain.errMarker s = true) :
    hasE s = true := by
  have hm : 'E' ∈ s.data := head_mem_of_containsSubL (by decide) h
  simp only [hasE, List.any_eq_true, decide_eq_true_eq]
  exact ⟨'E', hm, rfl⟩

theorem errMarker_notin_of_hasE {s : String} (h : hasE s = false) :
    pyIn RootMain.errMarker s = false := by
  by_contra hc
  rw [Bool.not_eq_false] at hc
  rw [hasE_of_errMarker hc] at h
  simp at h

theorem toLower_ne_E (c : Char) : Char.toLower c ≠ 'E' := by
  by_cases hc : c.toNat ≥ 65 ∧ c.toNat ≤ 90
  · have h1 : Char.toLower c = Char.ofNat (c.toNat + 32) := by
      simp [Char.toLower, hc]
    rw [h1]
    intro hEq
    have hval : (c.toNat + 32).isValidChar := Or.inl (by omega)
    have h2 : (Char.ofNat (c.toNat + 32)).toNat = c.toNat + 32 := by
      unfold Char.ofNat
      rw [dif_pos hval]
      rfl
    rw [hEq] at h2
    have hE : ('E' : Char).toNat = 69 := rfl
    omega
  · have h1 : Char.toLower c = c := by simp [Char.toLower, hc]
    rw [h1]
    intro hEq
    rw [hEq] at hc
    exact hc (by decide)

theorem hasE_pyLower (s : String) : hasE (pyLower s) = false := by
  simp only [hasE, pyLower, List.any_map]
  rw [List.any_eq_false]
  intro c _
  simp only [Function.comp_apply, decide_eq_true_eq]
  exact toLower_ne_E c

theorem mem_pyReplaceL_single {p : Char} {rep : List Char} :
    ∀ {l : List Char} {c : Char}, c ∈ pyReplaceL p [] rep l → c ∈ rep ∨ c ∈ l := by
  intro l
  induction l with
  | nil =>
    intro c hc
    rw [pyReplaceL] at hc
    simp at hc
  | cons a t ih =>
    intro c hc
    rw [pyReplaceL] at hc
    by_cases hp : isPrefixOfL (p :: []) (a :: t) = true
    · rw [if_pos hp] at hc
      simp only [List.drop_zero, List.mem_append] at hc
      rcases hc with hc | hc
      · exact Or.inl hc
      · rcases ih hc with hr | hr
        · exact Or.inl hr
        · exact Or.inr (List.mem_cons_of_mem _ hr)
    · rw [if_neg hp] at hc
      rcases List.mem_cons.mp hc with hc | hc
      · exact Or.inr (hc ▸ List.mem_cons_self _ _)
      · rcases ih hc with hr | hr
        · exact Or.inl hr
        · exact Or.inr (List.mem_cons_of_mem _ hr)

theorem hasE_pyReplace_lower (u : String) :
    hasE (pyReplace (pyLower u) " " "_") = false := by
  have hrepl : pyReplace (pyLower u) " " "_" =
      ⟨pyReplaceL ' ' [] ("_".data) (pyLower u).data⟩ := rfl
  rw [hrepl]
  simp only [hasE]
  rw [List.any_eq_false]
  intro c hc
  simp only [decide_eq_true_eq]
  rcases mem_pyReplaceL_single hc with h | h
  · intro hEq
    subst hEq
    simp at h
  · have hl := hasE_pyLower u
    simp only [hasE] at hl
    rw [List.any_eq_false] at hl
    have := hl c h
    simp only [decide_eq_true_eq] at this
    exact this

theorem hasE_pyRstrip {s : String} (h : hasE s = false) (c : Char) :
    hasE (pyRstrip s c) = false := by
  simp only [hasE, pyRstrip] at h ⊢
  rw [List.any_eq_false] at h ⊢
  intro x hx
  apply h
  rw [List.mem_reverse] at hx
  have h1 : x ∈ s.data.reverse := List.Sublist.mem hx (List.dropWhile_sublist _)
  rwa [List.mem_reverse] at h1

theorem hasE_rootPdfFilename {u ts : String} (ht : hasE ts = false) :
    hasE (RootMain.rootPdfFilename u ts) = false := by
  unfold RootMain.rootPdfFilename
  have h1 : hasE "ralph_analysis_" = false := by decide
  have h2 : hasE "_" = false := by decide
  have h3 : hasE ".pdf" = false := by decide
  simp [hasE_append, hasE_pyReplace_lower, ht, h1, h2, h3]

set_option maxRecDepth 100000 in
theorem hasE_pdfLinkText {host u ts : String} (hh : hasE host = false)
    (ht : hasE ts = false) :
    hasE (RootMain.pdfLinkText
      (pyRstrip host '/' ++ "/reports/" ++ RootMain.rootPdfFilename u ts)) = false := by
  simp only [RootMain.pdfLinkText, hasE_append]
  rw [hasE_pyRstrip hh, hasE_rootPdfFilename ht]
  decide

/-! ## Adapter message lemmas -/

theorem pyIn_head_append {pat a : String} (h : isPrefixOfL pat.data a.data = true)
    (b : String) : pyIn pat (a ++ b) = true := by
  unfold pyIn
  rw [String.data_append]
  exact containsSubL_of_isPrefixOfL (isPrefixOfL_append h b.data)

theorem isPrefixOfL_data_append {pat a : String} (h : isPrefixOfL pat.data a.data = true)
    (b : String) : isPrefixOfL pat.data (a ++ b).data = true := by
  rw [String.data_append]
  exact isPrefixOfL_append h b.data

theorem errMarker_in_deepseekErrorMsg (e : String) :
    pyIn RootMain.errMarker (RootMain.deepseekErrorMsg e) = true := by
  unfold RootMain.deepseekErrorMsg
  dsimp only
  split_ifs <;>
    exact pyIn_head_append (isPrefixOfL_data_append (by decide) e) ")"

theorem deepseekErrorMsg_factor (e : String) :
    RootMain.deepseekErrorMsg e =
      RootMain.kindMsgHead (RootMain.classifyKind e) ++ e ++ ")" := by
  unfold RootMain.deepseekErrorMsg RootMain.classifyKind
  dsimp only
  split_ifs <;> rfl

theorem summaryErrorMsg_factor (e : String) :
    PdfGen.summaryErrorMsg e = PdfGen.summaryMsg (PdfGen.summaryKind e) := by
  unfold PdfGen.summaryErrorMsg PdfGen.summaryKind
  dsimp only
  split_ifs <;> rfl

theorem aiSectionErrorMsg_factor (k e : String) :
    PdfGen.aiSectionErrorMsg k e =
      PdfGen.aiSectionBase k ++ PdfGen.aiKindSuffix (RootMain.classifyKind e) := by
  unfold PdfGen.aiSectionErrorMsg RootMain.classifyKind
  dsimp only
  split_ifs <;> simp [PdfGen.aiKindSuffix, String.append_empty]

theorem isPrefixOfL_complete {l1 l2 : List Char} (h : l1 <+: l2) :
    isPrefixOfL l1 l2 = true := by
  obtain ⟨t, rfl⟩ := h
  induction l1 with
  | nil => rfl
  | cons a as ih => simp [isPrefixOfL, ih]

theorem dsMsg_eq (e : String) :
    RootMain.generate_deepseek_analysis true (Except.error e) =
      RootMain.kindMsgHead (RootMain.classifyKind e) ++ e ++ ")" := by
  have h0 : RootMain.generate_deepseek_analysis true (Except.error e) =
      RootMain.deepseekErrorMsg e := rfl
  rw [h0, deepseekErrorMsg_factor]

set_option maxRecDepth 4000 in
theorem kindMsgHead_incomp {k k' : ErrKind} (h : k ≠ k') :
    isPrefixOfL (RootMain.kindMsgHead k).data (RootMain.kindMsgHead k').data = false := by
  cases k <;> cases k' <;> first | exact absurd rfl h | decide

theorem dsMsg_injective {e e' : String}
    (hk : RootMain.classifyKind e ≠ RootMain.classifyKind e') :
    RootMain.generate_deepseek_analysis true (Except.error e) ≠
      RootMain.generate_deepseek_analysis true (Except.error e') := by
  intro heq
  rw [dsMsg_eq, dsMsg_eq] at heq
  have hdata := congrArg String.data heq
  rw [String.data_append, String.data_append, String.data_append, String.data_append,
      List.append_assoc, List.append_assoc] at hdata
  rcases List.append_eq_append_iff.mp hdata with ⟨a, ha1, _⟩ | ⟨c, hc1, _⟩
  · have hp : isPrefixOfL (RootMain.kindMsgHead (RootMain.classifyKind e)).data
        (RootMain.kindMsgHead (RootMain.classifyKind e')).data = true :=
      isPrefixOfL_complete ⟨a, ha1.symm⟩
    rw [kindMsgHead_incomp hk] at hp
    simp at hp
  · have hp : isPrefixOfL (RootMain.kindMsgHead (RootMain.classifyKind e')).data
        (RootMain.kindMsgHead (RootMain.classifyKind e)).data = true :=
      isPrefixOfL_complete ⟨c, hc1.symm⟩
    rw [kindMsgHead_incomp (Ne.symm hk)] at hp
    simp at hp

theorem summaryFst_eq (e : String) :
    (PdfGen.generate_summary_analysis true (Except.error e)).1 =
      PdfGen.summaryMsg (PdfGen.summaryKind e) := by
  have h0 : (PdfGen.generate_summary_analysis true (Except.error e)).1 =
      PdfGen.summaryErrorMsg e := rfl
  rw [h0, summaryErrorMsg_factor]

theorem summaryMsg_inj {k k' : ErrKind}
    (h : PdfGen.summaryMsg k = PdfGen.summaryMsg k') : k = k' := by
  cases k <;> cases k' <;> first | rfl | (exfalso; revert h; decide)

theorem aiSection_eq {k : String} (hk : PdfGen.sectionKeys.contains k = true)
    (e : String) :
    PdfGen.generate_ai_section true k (Except.error e) =
      PdfGen.aiSectionBase k ++ PdfGen.aiKindSuffix (RootMain.classifyKind e) := by
  unfold PdfGen.generate_ai_section
  rw [hk]
  rw [if_neg (by simp), if_neg (by simp)]
  exact aiSectionErrorMsg_factor k e

/-! ## C4: success path of the analysis functions -/

/-- C4 (amended): on a successful completion the root analysis function
returns the stripped completion text with the fixed Ralph signature
appended (not the bare stripped text), and returns the distinct
empty-response failure message when the completion strips to empty; the
refactored summary function returns exactly the stripped completion text
with a success flag, with no separate handling of the empty string. -/
theorem c4_success_path (content : String) :
    (pyStrip content ≠ "" →
      RootMain.generate_deepseek_analysis true (Except.ok content) =
        pyStrip content ++ RootMain.ralphSignature) ∧
    (pyStrip content = "" →
      RootMain.generate_deepseek_analysis true (Except.ok content) =
        "Analysis could not be generated. Empty response received from API.") ∧
    PdfGen.generate_summary_analysis true (Except.ok content) = (pyStrip content, true) := by
  have hred : RootMain.generate_deepseek_analysis true (Except.ok content) =
      (if pyStrip content = ""
       then "Analysis could not be generated. Empty response received from API."
       else pyStrip content ++ RootMain.ralphSignature) := rfl
  refine ⟨?_, ?_, rfl⟩
  · intro h
    rw [hred, if_neg h]
  · intro h
    rw [hred, if_pos h]

/-- C4 counterexample: the root function does not return the stripped
completion text (it appends a signature), and the refactored summary
function returns the empty string with a success flag instead of a
distinct empty-response failure. -/
theorem c4_counterexample :
    RootMain.generate_deepseek_analysis true (Except.ok " hi ") ≠ pyStrip " hi " ∧
    PdfGen.generate_summary_analysis true (Except.ok " ") = ("", true) := by
  decide

/-- C4 witness: the success path at a concrete completion. -/
theorem c4_witness :
    RootMain.generate_deepseek_analysis true (Except.ok " hi ") =
      pyStrip " hi " ++ RootMain.ralphSignature :=
  (c4_success_path " hi ").1 (by decide)

/-! ## C5: four-way error classification -/

/-- C5 (amended): each adapter string-matches a raised exception into
exactly one of four kinds (the type `ErrKind`; the root adapter also
matches `limit`, `insufficient_quota` and `timed out`, the summary
adapter only `authentication`/`quota`/`timeout`).  In the root adapter
every kind owns a constant message head, no head is a prefix of another,
and exceptions of different kinds never produce equal messages.  In the
refactored adapters the four kinds share the common base message and are
distinguished by a kind-specific suffix (empty for `unknown`), so the
four constant messages are pairwise distinct but do **not** have distinct
prefixes — the `unknown` message is a prefix of the other three. -/
theorem c5_classification :
    (∀ e, RootMain.generate_deepseek_analysis true (Except.error e) =
        RootMain.kindMsgHead (RootMain.classifyKind e) ++ e ++ ")") ∧
    (∀ k k' : ErrKind, k ≠ k' →
        isPrefixOfL (RootMain.kindMsgHead k).data (RootMain.kindMsgHead k').data = false) ∧
    (∀ e e', RootMain.classifyKind e ≠ RootMain.classifyKind e' →
        RootMain.generate_deepseek_analysis true (Except.error e) ≠
          RootMain.generate_deepseek_analysis true (Except.error e')) ∧
    (∀ e, (PdfGen.generate_summary_analysis true (Except.error e)).1 =
        PdfGen.summaryMsg (PdfGen.summaryKind e)) ∧
    (∀ k k' : ErrKind, PdfGen.summaryMsg k = PdfGen.summaryMsg k' → k = k') ∧
    (∀ k e, PdfGen.sectionKeys.contains k = true →
        PdfGen.generate_ai_section true k (Except.error e) =
          PdfGen.aiSectionBase k ++ PdfGen.aiKindSuffix (RootMain.classifyKind e)) :=
  ⟨dsMsg_eq,
   fun _ _ h => kindMsgHead_incomp h,
   fun _ _ h => dsMsg_injective h,
   summaryFst_eq,
   fun _ _ h => summaryMsg_inj h,
   fun _ e hk => aiSection_eq hk e⟩

/-- C5 counterexample: in the refactored summary adapter an unrecognized
exception and an authentication exception are classified into different
kinds, yet the message of the former is a proper prefix of the message of
the latter — so the kinds do not own distinct message prefixes. -/
theorem c5_counterexample :
    PdfGen.summaryKind "zzz" ≠ PdfGen.summaryKind "authentication" ∧
    (PdfGen.generate_summary_analysis true (Except.error "zzz")).1 ≠
      (PdfGen.generate_summary_analysis true (Except.error "authentication")).1 ∧
    isPrefixOfL ((PdfGen.generate_summary_analysis true (Except.error "zzz")).1).data
      ((PdfGen.generate_summary_analysis true (Except.error "authentication")).1).data
        = true := by
  decide

/-- C5 witness: two concrete exceptions of different kinds give different
root-adapter messages. -/
theorem c5_witness :
    RootMain.generate_deepseek_analysis true (Except.error "authentication") ≠
      RootMain.generate_deepseek_analysis true (Except.error "boom") :=
  c5_classification.2.2.1 "authentication" "boom" (by decide)

/-! ## C9: all-or-nothing PDF generation in the refactored variant -/

theorem sectionHasError_of_error {cfg : Bool} {k e : String}
    (hk : PdfGen.sectionKeys.contains k = true) :
    PdfGen.sectionHasError (PdfGen.generate_ai_section cfg k (Except.error e)) = true := by
  cases cfg with
  | false =>
    have h0 : PdfGen.generate_ai_section false k (Except.error e) =
        "Erro: Cliente DeepSeek não configurado para gerar seção \x27" ++ k ++ "\x27." := rfl
    rw [h0]
    unfold PdfGen.sectionHasError
    have h1 : pyIn "Erro:"
        ("Erro: Cliente DeepSeek não configurado para gerar seção \x27" ++ k ++ "\x27.")
          = true :=
      pyIn_head_append (isPrefixOfL_data_append (by decide) k) _
    rw [h1]
    rfl
  | true =>
    rw [aiSection_eq hk e]
    unfold PdfGen.sectionHasError
    have h1 : pyIn "Erro ao gerar"
        (PdfGen.aiSectionBase k ++ PdfGen.aiKindSuffix (RootMain.classifyKind e)) = true := by
      apply pyIn_head_append
      unfold PdfGen.aiSectionBase
      exact isPrefixOfL_data_append (isPrefixOfL_data_append (by decide) k) _
    rw [h1]
    simp

/-- C9: PDF report generation in the refactored variant is all-or-nothing:
if the content generated for any one of the five sections matches the
error detector — in particular whenever the per-section LLM call raises —
`generate_pdf_report_weasyprint` returns `none` (the original
`(None, None)`) and no PDF is produced.  The function is total (every
internal exception is caught), so it never raises to its caller. -/
theorem c9_all_or_nothing (cfg : Bool) (llm : String → Except String String)
    (tmpl rok : Bool) (folder u ts : String) :
    ((∃ k, k ∈ PdfGen.sectionKeys ∧
        PdfGen.sectionHasError (PdfGen.generate_ai_section cfg k (llm k)) = true) →
      PdfGen.generate_pdf_report_weasyprint cfg llm tmpl rok folder u ts = none) ∧
    (∀ k e, k ∈ PdfGen.sectionKeys → llm k = Except.error e →
      PdfGen.generate_pdf_report_weasyprint cfg llm tmpl rok folder u ts = none) := by
  have hmain : (∃ k, k ∈ PdfGen.sectionKeys ∧
      PdfGen.sectionHasError (PdfGen.generate_ai_section cfg k (llm k)) = true) →
      PdfGen.generate_pdf_report_weasyprint cfg llm tmpl rok folder u ts = none := by
    rintro ⟨k, hk, he⟩
    unfold PdfGen.generate_pdf_report_weasyprint
    dsimp only
    have hany : (PdfGen.sectionKeys.map
        (fun k => PdfGen.generate_ai_section cfg k (llm k))).any PdfGen.sectionHasError
          = true := by
      rw [List.any_eq_true]
      exact ⟨_, List.mem_map_of_mem _ hk, he⟩
    rw [if_pos hany]
  constructor
  · exact hmain
  · intro k e hk he
    apply hmain
    refine ⟨k, hk, ?_⟩
    rw [he]
    exact sectionHasError_of_error (List.elem_iff.mpr hk)

/-- C9 witness: a run where every per-section LLM call raises returns no
PDF. -/
theorem c9_witness :
    PdfGen.generate_pdf_report_weasyprint true (fun _ => Except.error "boom")
      true true "folder" "Ana" "20250101" = none :=
  (c9_all_or_nothing true (fun _ => Except.error "boom") true true "folder" "Ana"
    "20250101").2 "executive_summary" "boom" (by decide) rfl

/-! ## C6: empty chat history is rejected with a 400 before any LLM work -/

/-- C6: in both variants, a valid-JSON request whose `chatHistory` is
empty (a missing key defaults to the empty list) is answered with
HTTP 400 and an `error` field, whatever the other fields and oracle
outcomes are, and the LLM adapter is not invoked (`llmInvoked = false`). -/
theorem c6_empty_history_400 (d : ReqData) (cfg cfg2 : Bool)
    (llm llm2 : Except String String) (pdfOk : Bool) (folder ts host : String)
    (se pw rc : Option String) (smtp : Except String Unit)
    (hd : d.chatHistory = []) :
    RootMain.analyze_data true (some d) cfg llm pdfOk folder ts host se pw rc smtp =
      ⟨400, some "Chat history is empty", none, none, none, false, false⟩ ∧
    AppMain.analyze_chat true (some d) cfg2 llm2 =
      ⟨400, some "Chat history is empty", none, none, none, false⟩ := by
  constructor
  · simp [RootMain.analyze_data, hd]
  · simp [AppMain.analyze_chat, hd]

/-- C6 witness: the concrete empty-history request. -/
theorem c6_witness :
    RootMain.analyze_data true (some demoEmptyReq) true (Except.ok "x") true
        "folder" "ts" "host" none none none (Except.ok ()) =
      ⟨400, some "Chat history is empty", none, none, none, false, false⟩ ∧
    AppMain.analyze_chat true (some demoEmptyReq) true (Except.ok "x") =
      ⟨400, some "Chat history is empty", none, none, none, false⟩ :=
  c6_empty_history_400 demoEmptyReq true true (Except.ok "x") (Except.ok "x") true
    "folder" "ts" "host" none none none (Except.ok ()) rfl

/-! ## C7: email delivery never fails the primary request -/

/-- C7: both email helpers skip (returning `False`, never raising) when
credentials are missing; and in both handlers every HTTP response field
is independent of the email credentials and of the SMTP outcome — only
the model-level `emailSent` observation can differ — so an email failure
can never change the user-facing response of `/analyze` or
`/generate-pdf`. -/
theorem c7_email_best_effort :
    (∀ (se pw rc : Option String) (smtp : Except String Unit),
        se = none ∨ pw = none ∨ rc = none →
        RootMain.send_email_notification se pw rc smtp = false) ∧
    (∀ (se pw : Option String) (smtp : Except String Unit),
        se = none ∨ pw = none → AppMain.send_email_notification se pw smtp = false) ∧
    (∀ (isJson : Bool) (data : Option ReqData) (cfg : Bool) (llm : Except String String)
        (pdfOk : Bool) (folder ts host : String) (se pw rc se' pw' rc' : Option String)
        (smtp smtp' : Except String Unit),
        ((RootMain.analyze_data isJson data cfg llm pdfOk folder ts host se pw rc smtp).httpCode,
         (RootMain.analyze_data isJson data cfg llm pdfOk folder ts host se pw rc smtp).errorField,
         (RootMain.analyze_data isJson data cfg llm pdfOk folder ts host se pw rc smtp).analysis_text,
         (RootMain.analyze_data isJson data cfg llm pdfOk folder ts host se pw rc smtp).status,
         (RootMain.analyze_data isJson data cfg llm pdfOk folder ts host se pw rc smtp).pdf_url) =
        ((RootMain.analyze_data isJson data cfg llm pdfOk folder ts host se' pw' rc' smtp').httpCode,
         (RootMain.analyze_data isJson data cfg llm pdfOk folder ts host se' pw' rc' smtp').errorField,
         (RootMain.analyze_data isJson data cfg llm pdfOk folder ts host se' pw' rc' smtp').analysis_text,
         (RootMain.analyze_data isJson data cfg llm pdfOk folder ts host se' pw' rc' smtp').status,
         (RootMain.analyze_data isJson data cfg llm pdfOk folder ts host se' pw' rc' smtp').pdf_url)) ∧
    (∀ (isJson : Bool) (data : Option ReqData) (cfg : Bool)
        (llm : String → Except String String) (tmpl rok : Bool) (folder ts : String)
        (se pw rc se' pw' rc' : Option String) (smtp smtp' : Except String Unit),
        ((AppMain.generate_pdf isJson data cfg llm tmpl rok folder ts se pw rc smtp).httpCode,
         (AppMain.generate_pdf isJson data cfg llm tmpl rok folder ts se pw rc smtp).errorField,
         (AppMain.generate_pdf isJson data cfg llm tmpl rok folder ts se pw rc smtp).fileSent) =
        ((AppMain.generate_pdf isJson data cfg llm tmpl rok folder ts se' pw' rc' smtp').httpCode,
         (AppMain.generate_pdf isJson data cfg llm tmpl rok folder ts se' pw' rc' smtp').errorField,
         (AppMain.generate_pdf isJson data cfg llm tmpl rok folder ts se' pw' rc' smtp').fileSent)) := by
  refine ⟨?_, ?_, ?_, ?_⟩
  · intro se pw rc smtp h
    rcases h with h | h | h <;> subst h <;>
      simp [RootMain.send_email_notification]
  · intro se pw smtp h
    rcases h with h | h <;> subst h <;>
      simp [AppMain.send_email_notification]
  · intro isJson data cfg llm pdfOk folder ts host se pw rc se' pw' rc' smtp smtp'
    cases isJson with
    | false => rfl
    | true =>
      cases data with
      | none => rfl
      | some d =>
        by_cases hd : d.chatHistory = []
        · simp [RootMain.analyze_data, hd]
        · simp [RootMain.analyze_data, hd]
  · intro isJson data cfg llm tmpl rok folder ts se pw rc se' pw' rc' smtp smtp'
    cases isJson with
    | false => rfl
    | true =>
      cases data with
      | none => rfl
      | some d =>
        by_cases hd : d.chatHistory = []
        · simp [AppMain.generate_pdf, hd]
        · cases hw : PdfGen.generate_pdf_report_weasyprint cfg llm tmpl rok folder
              d.userName ts with
          | none => simp [AppMain.generate_pdf, hd, hw]
          | some pf => simp [AppMain.generate_pdf, hd, hw]

/-- C7 witness: a missing sender skips the root email step. -/
theorem c7_witness :
    RootMain.send_email_notification none (some "pw") (some "rcpt") (Except.ok ()) = false :=
  c7_email_best_effort.1 none (some "pw") (some "rcpt") (Except.ok ()) (Or.inl rfl)

/-! ## Evaluating the root `/analyze` handler on the 200 path -/

theorem pyIn_append_left {pat a : String} (h : pyIn pat a = true) (b : String) :
    pyIn pat (a ++ b) = true := by
  unfold pyIn at h ⊢
  rw [String.data_append]
  exact containsSubL_append_right h b.data

set_option maxRecDepth 100000 in
theorem errMarker_notin_generic :
    pyIn RootMain.errMarker RootMain.genericFallbackText = false :=
  errMarker_notin_of_hasE (by decide)

theorem analyze_data_fallback (d : ReqData) (cfg : Bool) (llm : Except String String)
    (pdfOk : Bool) (folder ts host : String) (se pw rc : Option String)
    (smtp : Except String Unit) (hd : d.chatHistory ≠ [])
    (hfb : cfg = false ∨ ∃ e, llm = Except.error e) :
    RootMain.analyze_data true (some d) cfg llm pdfOk folder ts host se pw rc smtp =
      (if pdfOk then
        ⟨200, none,
         some (RootMain.pdfLinkText
           (pyRstrip host '/' ++ "/reports/" ++ RootMain.rootPdfFilename d.userName ts)),
         some (if pyIn RootMain.errMarker (RootMain.pdfLinkText
             (pyRstrip host '/' ++ "/reports/" ++ RootMain.rootPdfFilename d.userName ts))
           then "error" else "success"),
         some ("/reports/" ++ RootMain.rootPdfFilename d.userName ts), cfg,
         RootMain.send_email_notification se pw rc smtp⟩
      else
        ⟨200, none, some RootMain.genericFallbackText,
         some (if pyIn RootMain.errMarker RootMain.genericFallbackText
           then "error" else "success"),
         none, cfg, RootMain.send_email_notification se pw rc smtp⟩) := by
  rcases hfb with hcfg | ⟨e, he⟩
  · subst hcfg
    cases pdfOk with
    | true => simp [RootMain.analyze_data, hd, RootMain.generate_pdf_report]
    | false => simp [RootMain.analyze_data, hd, RootMain.generate_pdf_report]
  · subst he
    have hgen : RootMain.generate_deepseek_analysis true (Except.error e) =
        RootMain.deepseekErrorMsg e := rfl
    cases cfg with
    | false =>
      cases pdfOk with
      | true => simp [RootMain.analyze_data, hd, RootMain.generate_pdf_report]
      | false => simp [RootMain.analyze_data, hd, RootMain.generate_pdf_report]
    | true =>
      cases pdfOk with
      | true =>
        simp [RootMain.analyze_data, hd, RootMain.generate_pdf_report, hgen,
              errMarker_in_deepseekErrorMsg e]
      | false =>
        simp [RootMain.analyze_data, hd, RootMain.generate_pdf_report, hgen,
              errMarker_in_deepseekErrorMsg e]

theorem analyze_data_200_shape (d : ReqData) (cfg : Bool) (llm : Except String String)
    (pdfOk : Bool) (folder ts host : String) (se pw rc : Option String)
    (smtp : Except String Unit) (hd : d.chatHistory ≠ []) :
    ∃ (t : String) (pu : Option String),
      RootMain.analyze_data true (some d) cfg llm pdfOk folder ts host se pw rc smtp =
        ⟨200, none, some t,
         some (if pyIn RootMain.errMarker t then "error" else "success"), pu, cfg,
         RootMain.send_email_notification se pw rc smtp⟩ := by
  simp only [RootMain.analyze_data]
  rw [if_neg (by simp : ¬(true = false))]
  rw [if_neg hd]
  exact ⟨_, _, rfl⟩

/-! ## C10: the status field mirrors the error marker -/

/-- C10: on the 200 path of the root `/analyze` handler the status field
equals `"error"` exactly when the final `analysis_text` contains the
literal marker `"Error generating AI analysis:"`; and when the client is
unconfigured or the LLM call raises but the fallback PDF generation
succeeds, the replacement text lacks the marker and the status is
`"success"`.  The last part assumes the request host URL and the
timestamp contain no capital `E` (true of any real host URL and of the
`%Y%m%d_%H%M%S` timestamps the code builds), since both are spliced into
the replacement text. -/
theorem c10_status_iff_marker (d : ReqData) (cfg : Bool) (llm : Except String String)
    (pdfOk : Bool) (folder ts host : String) (se pw rc : Option String)
    (smtp : Except String Unit) (hd : d.chatHistory ≠ []) :
    ∀ r, r = RootMain.analyze_data true (some d) cfg llm pdfOk folder ts host se pw rc smtp →
      r.httpCode = 200 ∧
      (r.status = some "error" ↔ pyIn RootMain.errMarker (r.analysis_text.getD "") = true) ∧
      ((cfg = false ∨ ∃ e, llm = Except.error e) → pdfOk = true →
        hasE host = false → hasE ts = false →
        r.status = some "success" ∧
        pyIn RootMain.errMarker (r.analysis_text.getD "") = false) := by
  intro r hr
  obtain ⟨t, pu, heq⟩ := analyze_data_200_shape d cfg llm pdfOk folder ts host se pw rc
    smtp hd
  refine ⟨?_, ?_, ?_⟩
  · rw [hr, heq]
  · rw [hr, heq]
    cases hC : pyIn RootMain.errMarker t with
    | true => simp [hC]
    | false =>
      simp [hC]
  · intro hfb hpdf hh ht
    subst hpdf
    have hfall := analyze_data_fallback d cfg llm true folder ts host se pw rc smtp hd hfb
    rw [if_pos rfl] at hfall
    have hmark : pyIn RootMain.errMarker (RootMain.pdfLinkText
        (pyRstrip host '/' ++ "/reports/" ++ RootMain.rootPdfFilename d.userName ts))
          = false :=
      errMarker_notin_of_hasE (hasE_pdfLinkText hh ht)
    rw [hr, hfall]
    constructor
    · simp [hmark]
    · simp [hmark]

/-- C10 witness: an unconfigured client with a successful fallback PDF
yields a 200 response with status `success` and no marker in the text. -/
theorem c10_witness :
    (RootMain.analyze_data true (some demoReq) false (Except.ok "x") true "folder"
        "20250101_000000" "http://localhost:8080/" none none none
        (Except.ok ())).status = some "success" ∧
    pyIn RootMain.errMarker
      ((RootMain.analyze_data true (some demoReq) false (Except.ok "x") true "folder"
          "20250101_000000" "http://localhost:8080/" none none none
          (Except.ok ())).analysis_text.getD "") = false :=
  (c10_status_iff_marker demoReq false (Except.ok "x") true "folder" "20250101_000000"
      "http://localhost:8080/" none none none (Except.ok ()) (by decide) _ rfl).2.2
    (Or.inl rfl) rfl (by decide) (by decide)

/-! ## C1: an `insufficient_quota` exception takes the fallback path -/

set_option maxRecDepth 8000 in
/-- C1 (amended): when the LLM call of the root `/analyze` handler raises
an exception whose message contains `insufficient_quota` (and is not also
classified as an authentication failure), the intermediate adapter
message does contain the quota phrase, but the handler then takes the
PDF-fallback path: the 200 response carries status `"success"` and an
`analysis_text` replaced by fallback text that does not contain the error
marker — not status `"error"`.  (Same capital-E side conditions on the
host URL and timestamp as C10.) -/
theorem c1_quota_goes_fallback (d : ReqData) (pdfOk : Bool) (folder ts host : String)
    (se pw rc : Option String) (smtp : Except String Unit) (e : String)
    (hd : d.chatHistory ≠ [])
    (hq : pyIn "insufficient_quota" (pyLower e) = true)
    (ha : pyIn "authentication" (pyLower e) = false)
    (hh : hasE host = false) (ht : hasE ts = false) :
    pyIn "quota" (RootMain.generate_deepseek_analysis true (Except.error e)) = true ∧
    (RootMain.analyze_data true (some d) true (Except.error e) pdfOk folder ts host
      se pw rc smtp).status = some "success" ∧
    pyIn RootMain.errMarker
      ((RootMain.analyze_data true (some d) true (Except.error e) pdfOk folder ts host
        se pw rc smtp).analysis_text.getD "") = false := by
  have hk : RootMain.classifyKind e = ErrKind.quota := by
    unfold RootMain.classifyKind
    simp [ha, hq]
  have hquota : pyIn "quota"
      (RootMain.generate_deepseek_analysis true (Except.error e)) = true := by
    rw [dsMsg_eq, hk]
    exact pyIn_append_left (pyIn_append_left (by decide) e) ")"
  have hfall := analyze_data_fallback d true (Except.error e) pdfOk folder ts host
    se pw rc smtp hd (Or.inr ⟨e, rfl⟩)
  refine ⟨hquota, ?_, ?_⟩
  · rw [hfall]
    cases pdfOk with
    | true =>
      simp [errMarker_notin_of_hasE (hasE_pdfLinkText hh ht)]
    | false =>
      simp [errMarker_notin_generic]
  · rw [hfall]
    cases pdfOk with
    | true =>
      simp [errMarker_notin_of_hasE (hasE_pdfLinkText hh ht)]
    | false =>
      simp [errMarker_notin_generic]

set_option maxRecDepth 1000000 in
/-- C1 counterexample: a concrete `/analyze` run whose LLM call raises
`insufficient_quota` answers with status `"success"` and an
`analysis_text` that does not even contain the word `quota` — the claimed
`status = "error"` with a quota phrase does not happen. -/
theorem c1_counterexample :
    demoQuotaRun.status = some "success" ∧
    pyIn "quota" (demoQuotaRun.analysis_text.getD "") = false := by
  decide

/-- C1 witness: the amended behaviour at a concrete quota failure. -/
theorem c1_witness :
    pyIn "quota" (RootMain.generate_deepseek_analysis true
      (Except.error "insufficient_quota")) = true ∧
    (RootMain.analyze_data true (some demoReq) true (Except.error "insufficient_quota")
      true "folder" "20250101_000000" "http://localhost:8080/" none none none
      (Except.ok ())).status = some "success" ∧
    pyIn RootMain.errMarker
      ((RootMain.analyze_data true (some demoReq) true (Except.error "insufficient_quota")
        true "folder" "20250101_000000" "http://localhost:8080/" none none none
        (Except.ok ())).analysis_text.getD "") = false :=
  c1_quota_goes_fallback demoReq true "folder" "20250101_000000" "http://localhost:8080/"
    none none none (Except.ok ()) "insufficient_quota" (by decide) (by decide)
    (by decide) (by decide) (by decide)
